import Mathlib

/-!
Verification development for the photo-to-KML pipeline in `app.py`.

The embedding models the three core functions of the source file:
`convert_to_degrees` (DMS → decimal degrees), `get_gps_coordinates`
(EXIF mapping → coordinates, with Python's exception semantics made
explicit), and `create_kml` (coordinates → serialized KML document).
Python numbers (ints, floats, EXIF rationals) are modelled as exact
rationals `ℚ`; Python dicts as association lists.
-/

set_option autoImplicit false

namespace ExifApp

/-- A value stored inside the GPS sub-dictionary of the EXIF data:
a string, a number (int / float / EXIF rational, modelled as `ℚ`),
or a sequence of such values. -/
inductive GpsVal where
  | str : String → GpsVal
  | num : ℚ → GpsVal
  | seq : List GpsVal → GpsVal

/-- A value stored in the top-level EXIF dictionary: a string, a number,
or the nested GPS dictionary stored under the key `"GPSInfo"`. -/
inductive ExifVal where
  | str : String → ExifVal
  | num : ℚ → ExifVal
  | gpsDict : List (String × GpsVal) → ExifVal

/-- The top-level EXIF mapping produced by `get_exif_data`. -/
abbrev RawMetadata := List (String × ExifVal)

/-- An exception raised inside the `try` block of `get_gps_coordinates`:
either one of the kinds the `except (KeyError, ValueError, TypeError)`
clause handles, or one that escapes the function (e.g. `NameError`). -/
inductive PyErr where
  | caught : PyErr
  | uncaught : String → PyErr
deriving DecidableEq

/-- The result dictionary of a successful `get_gps_coordinates` call:
`latitude`, `longitude` and an optional `altitude` (the `"altitude"`
key is `None` when absent). -/
structure Coordinates where
  latitude : ℚ
  longitude : ℚ
  altitude : Option ℚ
deriving DecidableEq

/-- Observable outcome of calling `get_gps_coordinates`: a coordinates
dictionary, the value `None`, or an exception escaping the call. -/
inductive GpsOutcome where
  | coords : Coordinates → GpsOutcome
  | noneVal : GpsOutcome
  | raised : String → GpsOutcome
deriving DecidableEq

/-- First-match lookup in the GPS sub-dictionary. -/
def lookupGps (k : String) : List (String × GpsVal) → Option GpsVal
  | [] => none
  | (k', v) :: rest => if k = k' then some v else lookupGps k rest

/-- First-match lookup in the top-level EXIF dictionary. -/
def lookupExif (k : String) : List (String × ExifVal) → Option ExifVal
  | [] => none
  | (k', v) :: rest => if k = k' then some v else lookupExif k rest

/-- Whether `pat` occurs as a contiguous substring of `s` (Python `in`
on strings). -/
def strContains (s pat : String) : Bool :=
  (List.range (s.length + 1)).any (fun i => pat.data.isPrefixOf (s.data.drop i))

/-- Run of decimal digits to a number; `none` when empty or non-digit. -/
def decDigits (cs : List Char) : Option ℕ :=
  if cs.isEmpty then none
  else cs.foldl
    (fun acc c => match acc with
      | none => none
      | some a => if c.isDigit then some (10 * a + (c.toNat - 48)) else none)
    (some 0)

/-- Python `float(str)` restricted to plain decimal literals
(optional sign, digits, optional fractional part); the source only ever
converts numeric EXIF components, so exotic forms (`inf`, exponents,
whitespace) are outside the model. -/
def parseFloatLit (s : String) : Option ℚ :=
  let body : List Char :=
    match s.data with
    | '-' :: rest => rest
    | '+' :: rest => rest
    | cs => cs
  let sign : ℚ := match s.data with | '-' :: _ => -1 | _ => 1
  match body.splitOn '.' with
  | [intPart] => (decDigits intPart).map (fun n => sign * n)
  | [intPart, fracPart] =>
      if intPart.isEmpty && fracPart.isEmpty then none
      else
        let ip : Option ℕ := if intPart.isEmpty then some 0 else decDigits intPart
        let fp : Option ℕ := if fracPart.isEmpty then some 0 else decDigits fracPart
        match ip, fp with
        | some i, some f => some (sign * (i + (f : ℚ) / 10 ^ fracPart.length))
        | _, _ => none
  | _ => none

/-- Python `float(x)` on a GPS value: numbers convert to themselves,
strings are parsed, sequences raise `TypeError` (modelled as `none`;
the caller's `except` clause catches `ValueError` and `TypeError`
alike). -/
def pyFloat : GpsVal → Option ℚ
  | .num q => some q
  | .str s => parseFloatLit s
  | .seq _ => none

/-- Python unpacking `d, m, s = value`: succeeds on a 3-element sequence
or a 3-character string, and raises (`ValueError`/`TypeError`) otherwise. -/
def unpack3 : GpsVal → Option (GpsVal × GpsVal × GpsVal)
  | .seq [a, b, c] => some (a, b, c)
  | .seq _ => none
  | .str s =>
      match s.data with
      | [a, b, c] => some (.str (String.mk [a]), .str (String.mk [b]), .str (String.mk [c]))
      | _ => none
  | .num _ => none

/-- `convert_to_degrees(value)` from `app.py`: unpack `d, m, s = value`
and return `float(d) + float(m)/60 + float(s)/3600`; `none` models the
`ValueError`/`TypeError` raised on malformed input. -/
def convert_to_degrees (value : GpsVal) : Option ℚ := do
  let (d, m, s) ← unpack3 value
  let d ← pyFloat d
  let m ← pyFloat m
  let s ← pyFloat s
  pure (d + m / 60 + s / 3600)

/-- Python `key in obj` for the object bound to `gps_info`: dictionary
key test, substring test on strings, `TypeError` on numbers. -/
def pyMem (key : String) : ExifVal → Except PyErr Bool
  | .gpsDict d => .ok (lookupGps key d).isSome
  | .str s => .ok (strContains s key)
  | .num _ => .error .caught

/-- Python `obj[key]` for the object bound to `gps_info`: dictionary
indexing raising `KeyError` when absent, `TypeError` on strings and
numbers. -/
def pyIndex (key : String) : ExifVal → Except PyErr GpsVal
  | .gpsDict d =>
      match lookupGps key d with
      | some v => .ok v
      | none => .error .caught
  | .str _ => .error .caught
  | .num _ => .error .caught

/-- Python `obj.get(key)`: dictionary lookup returning `None` when
absent; on non-dictionaries the attribute access raises `AttributeError`,
which the `except` clause does not handle. -/
def pyGetMethod (key : String) : ExifVal → Except PyErr (Option GpsVal)
  | .gpsDict d => .ok (lookupGps key d)
  | .str _ => .error (.uncaught "AttributeError")
  | .num _ => .error (.uncaught "AttributeError")

/-- Python `x == "ref"` comparing a GPS value against a string literal. -/
def pyEqStr (v : GpsVal) (s : String) : Bool :=
  match v with
  | .str t => t == s
  | _ => false

/-- Python `x == 1` comparing `gps_info.get("GPSAltitudeRef")` against
the integer `1`: `None` and non-numeric values compare unequal. -/
def pyEqOne (v : Option GpsVal) : Bool :=
  match v with
  | some (.num q) => q == 1
  | _ => false

/-- The `try` block of `get_gps_coordinates` (lines 73–97 of `app.py`),
with Python's local-variable semantics explicit: `lat`/`lon` are `none`
while unbound, and referencing an unbound local in the returned
dictionary raises `NameError` (an `UnboundLocalError`), which the
`except (KeyError, ValueError, TypeError)` clause does not catch. -/
def resolveGps (g : ExifVal) : Except PyErr Coordinates := do
  let lat : Option ℚ ← do
    let h1 ← pyMem "GPSLatitude" g
    let cond ← if h1 then pyMem "GPSLatitudeRef" g else pure false
    if cond then do
      let v ← pyIndex "GPSLatitude" g
      match convert_to_degrees v with
      | none => Except.error PyErr.caught
      | some x => do
          let r ← pyIndex "GPSLatitudeRef" g
          pure (some (if pyEqStr r "S" then -x else x))
    else pure none
  let lon : Option ℚ ← do
    let h1 ← pyMem "GPSLongitude" g
    let cond ← if h1 then pyMem "GPSLongitudeRef" g else pure false
    if cond then do
      let v ← pyIndex "GPSLongitude" g
      match convert_to_degrees v with
      | none => Except.error PyErr.caught
      | some x => do
          let r ← pyIndex "GPSLongitudeRef" g
          pure (some (if pyEqStr r "W" then -x else x))
    else pure none
  let altitude : Option ℚ ← do
    let h ← pyMem "GPSAltitude" g
    if h then do
      let v ← pyIndex "GPSAltitude" g
      match pyFloat v with
      | none => Except.error PyErr.caught
      | some a => do
          let ref ← pyGetMethod "GPSAltitudeRef" g
          pure (some (if pyEqOne ref then -a else a))
    else pure none
  match lat with
  | none => Except.error (PyErr.uncaught "NameError")
  | some la =>
      match lon with
      | none => Except.error (PyErr.uncaught "NameError")
      | some lo => pure ⟨la, lo, altitude⟩

/-- `get_gps_coordinates(exif_data)` from `app.py`: returns `None` when
`exif_data` is `None`, empty (falsy), or lacks the `"GPSInfo"` key;
otherwise runs the `try` block, converting a caught exception to `None`
and letting any other exception escape. -/
def get_gps_coordinates (exif_data : Option RawMetadata) : GpsOutcome :=
  match exif_data with
  | none => .noneVal
  | some data =>
    if data.isEmpty then .noneVal
    else
      match lookupExif "GPSInfo" data with
      | none => .noneVal
      | some g =>
          match resolveGps g with
          | .ok c => .coords c
          | .error .caught => .noneVal
          | .error (.uncaught n) => .raised n

/-- `exif_data.get('DateTime', exif_data.get('DateTimeOriginal'))` from
`upload_file` (line 184 of `app.py`): the timestamp handed to
`create_kml`. -/
def pickTimestamp (exif_data : RawMetadata) : Option ExifVal :=
  match lookupExif "DateTime" exif_data with
  | some v => some v
  | none => lookupExif "DateTimeOriginal" exif_data

/-- Left-pad a digit string with zeros to the given length. -/
def natPad (len : ℕ) (s : String) : String :=
  String.mk (List.replicate (len - s.length) '0') ++ s

/-- `a / b` rounded to the nearest integer, ties to even (the rounding
used by Python's fixed-point float formatting, applied here to the exact
rational value). -/
def roundHalfEvenDiv (a b : ℕ) : ℕ :=
  let q := a / b
  let r := a % b
  if 2 * r < b then q
  else if 2 * r > b then q + 1
  else if q % 2 = 0 then q else q + 1

/-- Python `format(x, '.{prec}f')` on the exact rational value `x`:
fixed-point notation with `prec` fractional digits, round half to even,
sign kept even when the rounded magnitude is zero. -/
def formatFixed (prec : ℕ) (q : ℚ) : String :=
  let n := roundHalfEvenDiv (q.num.natAbs * 10 ^ prec) q.den
  let sign := if q.num < 0 then "-" else ""
  if prec = 0 then sign ++ toString n
  else sign ++ toString (n / 10 ^ prec) ++ "." ++ natPad prec (toString (n % 10 ^ prec))

/-- Smallest `k ≤ 60` with `d ∣ 10 ^ k`, i.e. the number of digits of
the shortest finite decimal expansion of a fraction with denominator
`d`; `none` when there is no finite expansion. -/
def decExp (d : ℕ) : Option ℕ :=
  (List.range 61).find? (fun k => 10 ^ k % d == 0)

/-- Python `repr(x)` / f-string interpolation of the float `x`:
the shortest decimal rendering, with a mandatory fractional part
(`repr(10.0) = "10.0"`, `repr(0.5) = "0.5"`).  The model renders the
exact rational value; for values with no finite decimal expansion
(where CPython prints the shortest round-trip of the nearest binary64)
it falls back to 17 fractional digits, and the theorems below only
evaluate it on finite-decimal values, where the two agree. -/
def pyFloatRepr (q : ℚ) : String :=
  let sign := if q.num < 0 then "-" else ""
  match decExp q.den with
  | some k =>
      let n := q.num.natAbs * (10 ^ k / q.den)
      if k = 0 then sign ++ toString n ++ ".0"
      else sign ++ toString (n / 10 ^ k) ++ "." ++ natPad k (toString (n % 10 ^ k))
  | none => formatFixed 17 q

/-- Python truthiness of `coordinates['altitude']` (line 130 and 140 of
`app.py`): `None` and `0.0` are falsy, every other float is truthy. -/
def altTruthy : Option ℚ → Bool
  | some a => a != 0
  | none => false

/-- `timestamp or 'Unknown'` (line 128 of `app.py`): `None` and the
empty string are falsy. -/
def timestampOrUnknown : Option String → String
  | some s => if s == "" then "Unknown" else s
  | none => "Unknown"

/-- The element tree built by `create_kml` before serialization: the
`Document`-level name and description, and the placemark's name,
description and `Point`/`coordinates` text. -/
structure KmlDoc where
  docName : String
  docDescription : String
  placemarkName : String
  placemarkDescription : String
  pointCoordinates : String
deriving DecidableEq

/-- The placemark description f-string of `create_kml`
(lines 125–134 of `app.py`), including its literal newlines and
indentation; the altitude paragraph is emitted only when
`coordinates['altitude']` is truthy. -/
def kmlDescription (photo_filename : String) (c : Coordinates)
    (photo_url : String) (timestamp : Option String) : String :=
  "\n    <![CDATA[\n    <h3>" ++ photo_filename ++ "</h3>\n    <p>Captured: "
    ++ timestampOrUnknown timestamp ++ "</p>\n    <p>Coordinates: "
    ++ formatFixed 6 c.latitude ++ ", " ++ formatFixed 6 c.longitude ++ "</p>\n    "
    ++ (if altTruthy c.altitude then
          "<p>Altitude: " ++ formatFixed 2 (c.altitude.getD 0) ++ "m</p>"
        else "")
    ++ "\n    <img src=\"" ++ photo_url ++ "\" width=\"300\" alt=\"Photo\"/><br/>\n    <a href=\""
    ++ photo_url ++ "\" target=\"_blank\">View Full Size</a>\n    ]]>\n    "

/-- `create_kml(photo_filename, coordinates, photo_url, timestamp)` from
`app.py`, as the element tree it assembles: the serialized output is
obtained through `kmlToString`. -/
def create_kml (photo_filename : String) (coordinates : Coordinates)
    (photo_url : String) (timestamp : Option String) : KmlDoc :=
  { docName := "Photo Location: " ++ photo_filename
    docDescription := "GPS location extracted from " ++ photo_filename
    placemarkName := photo_filename
    placemarkDescription := kmlDescription photo_filename coordinates photo_url timestamp
    pointCoordinates :=
      if altTruthy coordinates.altitude then
        pyFloatRepr coordinates.longitude ++ "," ++ pyFloatRepr coordinates.latitude
          ++ "," ++ pyFloatRepr (coordinates.altitude.getD 0)
      else
        pyFloatRepr coordinates.longitude ++ "," ++ pyFloatRepr coordinates.latitude }

/-- Character-data escaping used by `minidom` when re-serializing the
tree (`&`, `<`, `"`, `>`, replaced in that order). -/
def minidomEscape (s : String) : String :=
  ((((s.replace "&" "&amp;").replace "<" "&lt;").replace "\"" "&quot;").replace ">" "&gt;")

/-- `ET.tostring` followed by `minidom.parseString(...).toprettyxml(indent="  ")`
(lines 145–149 of `app.py`) on the fixed tree shape that `create_kml`
builds: declaration line, two-space indentation, and each text-bearing
element written inline.  The model assumes the text fields are nonempty
(they always are for the f-strings above), so no element collapses to a
self-closing tag. -/
def kmlToString (d : KmlDoc) : String :=
  "<?xml version=\"1.0\" ?>\n"
    ++ "<kml xmlns=\"http://www.opengis.net/kml/2.2\">\n"
    ++ "  <Document>\n"
    ++ "    <name>" ++ minidomEscape d.docName ++ "</name>\n"
    ++ "    <description>" ++ minidomEscape d.docDescription ++ "</description>\n"
    ++ "    <Placemark>\n"
    ++ "      <name>" ++ minidomEscape d.placemarkName ++ "</name>\n"
    ++ "      <description>" ++ minidomEscape d.placemarkDescription ++ "</description>\n"
    ++ "      <Point>\n"
    ++ "        <coordinates>" ++ minidomEscape d.pointCoordinates ++ "</coordinates>\n"
    ++ "      </Point>\n"
    ++ "    </Placemark>\n"
    ++ "  </Document>\n"
    ++ "</kml>\n"

/-- Reduction of `Except` bind on a success value, for `simp`. -/
theorem ok_bind {ε α β : Type} (a : α) (f : α → Except ε β) :
    (Except.ok a : Except ε α) >>= f = f a := rfl

/-- Reduction of `Except` bind on an error value, for `simp`. -/
theorem error_bind {ε α β : Type} (e : ε) (f : α → Except ε β) :
    (Except.error e : Except ε α) >>= f = Except.error e := rfl

/-- C1: the claim fails on the code.  On a GPS sub-mapping holding the
latitude fields but neither longitude field, `get_gps_coordinates` does
not return absent: the local `lon` is never assigned, so the `return`
statement raises an `UnboundLocalError` (a `NameError`), which the
`except (KeyError, ValueError, TypeError)` clause does not catch. -/
theorem gps_partial_fields_crash :
    get_gps_coordinates (some [("GPSInfo", .gpsDict
      [("GPSLatitude", .seq [.num 40, .num 26, .num 46]),
       ("GPSLatitudeRef", .str "N")])]) = .raised "NameError" := rfl

/-- C2: on a GPS sub-mapping with all four latitude/longitude fields,
where each coordinate is a numeric triple `(d, m, s)` and the references
are `"N"`/`"S"` and `"E"`/`"W"`, the resolver returns
`d + m/60 + s/3600`, negated exactly when the reference is `"S"`
(latitude) or `"W"` (longitude). -/
theorem dms_conversion_signed (d m s d2 m2 s2 : ℚ) (rlat rlon : String)
    (hlat : rlat = "N" ∨ rlat = "S") (hlon : rlon = "E" ∨ rlon = "W") :
    get_gps_coordinates (some [("GPSInfo", .gpsDict
      [("GPSLatitude", .seq [.num d, .num m, .num s]),
       ("GPSLatitudeRef", .str rlat),
       ("GPSLongitude", .seq [.num d2, .num m2, .num s2]),
       ("GPSLongitudeRef", .str rlon)])]) =
      .coords ⟨if rlat = "S" then -(d + m / 60 + s / 3600) else d + m / 60 + s / 3600,
               if rlon = "W" then -(d2 + m2 / 60 + s2 / 3600) else d2 + m2 / 60 + s2 / 3600,
               none⟩ := by
  rcases hlat with h | h <;> rcases hlon with h' | h' <;> subst h <;> subst h' <;> rfl

/-- Witness for C2 at the DMS scenario `(40,26,46)/"N"`, `(79,58,56)/"W"`. -/
theorem dms_conversion_signed_witness :
    get_gps_coordinates (some [("GPSInfo", .gpsDict
      [("GPSLatitude", .seq [.num 40, .num 26, .num 46]),
       ("GPSLatitudeRef", .str "N"),
       ("GPSLongitude", .seq [.num 79, .num 58, .num 56]),
       ("GPSLongitudeRef", .str "W")])]) =
      .coords ⟨if ("N" : String) = "S" then -(40 + 26 / 60 + 46 / 3600)
               else 40 + 26 / 60 + 46 / 3600,
               if ("W" : String) = "W" then -(79 + 58 / 60 + 56 / 3600)
               else 79 + 58 / 60 + 56 / 3600,
               none⟩ :=
  dms_conversion_signed 40 26 46 79 58 56 "N" "W" (Or.inl rfl) (Or.inr rfl)

/-- C3: the second half of the claim holds (altitude `10` with
`GPSAltitudeRef = 1` resolves to `-10`, and ref `0` leaves `0`
unnegated), but the first half fails on the code: an altitude of
exactly `0` is dropped by `create_kml` — `if coordinates['altitude']:`
is false for `0.0` — so the point text has no altitude component and
the description is byte-identical to the altitude-absent one (no
`0.00` is rendered). -/
theorem zero_altitude_dropped :
    (get_gps_coordinates (some [("GPSInfo", .gpsDict
      [("GPSLatitude", .seq [.num 0, .num 0, .num 0]), ("GPSLatitudeRef", .str "N"),
       ("GPSLongitude", .seq [.num 0, .num 0, .num 0]), ("GPSLongitudeRef", .str "E"),
       ("GPSAltitude", .num 10), ("GPSAltitudeRef", .num 1)])])
      = .coords ⟨0 + 0 / 60 + 0 / 3600, 0 + 0 / 60 + 0 / 3600, some (-10)⟩)
    ∧ (get_gps_coordinates (some [("GPSInfo", .gpsDict
      [("GPSLatitude", .seq [.num 0, .num 0, .num 0]), ("GPSLatitudeRef", .str "N"),
       ("GPSLongitude", .seq [.num 0, .num 0, .num 0]), ("GPSLongitudeRef", .str "E"),
       ("GPSAltitude", .num 0), ("GPSAltitudeRef", .num 0)])])
      = .coords ⟨0 + 0 / 60 + 0 / 3600, 0 + 0 / 60 + 0 / 3600, some 0⟩)
    ∧ ((create_kml "photo.jpg" ⟨1, 2, some 0⟩ "http://example/p.jpg" none).pointCoordinates
        = "2.0,1.0")
    ∧ ((create_kml "photo.jpg" ⟨1, 2, some 0⟩ "http://example/p.jpg" none).placemarkDescription
        = (create_kml "photo.jpg" ⟨1, 2, none⟩ "http://example/p.jpg" none).placemarkDescription) :=
  ⟨rfl, rfl, rfl, rfl⟩

/-- C4 counterexample: when both timestamp fields are present,
`upload_file` passes the `DateTime` value, not the `DateTimeOriginal`
value, to the document builder. -/
theorem timestamp_prefers_datetime_cex :
    pickTimestamp [("DateTime", .str "2020:01:01 00:00:00"),
                   ("DateTimeOriginal", .str "1999:12:31 23:59:59")]
      = some (.str "2020:01:01 00:00:00")
    ∧ ("2020:01:01 00:00:00" : String) ≠ "1999:12:31 23:59:59" :=
  ⟨rfl, by decide⟩

/-- C4 amended: the timestamp passed to the builder is the `DateTime`
field, falling back to `DateTimeOriginal` when `DateTime` is absent. -/
theorem timestamp_datetime_first (data : RawMetadata) :
    (∀ v, lookupExif "DateTime" data = some v → pickTimestamp data = some v)
    ∧ (lookupExif "DateTime" data = none →
        pickTimestamp data = lookupExif "DateTimeOriginal" data) := by
  constructor
  · intro v h
    simp [pickTimestamp, h]
  · intro h
    simp [pickTimestamp, h]

/-- Witness for the amended C4 on both branches. -/
theorem timestamp_datetime_first_witness :
    pickTimestamp [("DateTime", ExifVal.str "A")] = some (ExifVal.str "A")
    ∧ pickTimestamp [("DateTimeOriginal", ExifVal.str "B")]
        = some (ExifVal.str "B") :=
  ⟨(timestamp_datetime_first [("DateTime", ExifVal.str "A")]).1 _ rfl,
   ((timestamp_datetime_first [("DateTimeOriginal", ExifVal.str "B")]).2 rfl).trans rfl⟩

/-- C5 counterexample: the point coordinate text is not rounded to six
decimal places — `create_kml` interpolates the raw float values into
the `coordinates` element, so latitude `1.0`, longitude `2.0` produce
`"2.0,1.0"`, not the claimed 6-decimal form. -/
theorem point_text_not_rounded_cex :
    (create_kml "photo.jpg" ⟨1, 2, none⟩ "http://example/p.jpg" none).pointCoordinates
      = "2.0,1.0"
    ∧ "2.0,1.0" ≠ formatFixed 6 (2 : ℚ) ++ "," ++ formatFixed 6 (1 : ℚ) :=
  ⟨rfl, by decide⟩

/-- C5 amended: with altitude absent, the point coordinate text is the
raw float rendering `longitude,latitude` (longitude first, no
rounding); the 6-decimal formatting appears only in the description. -/
theorem point_text_raw_floats (f u : String) (t : Option String) (la lo : ℚ) :
    (create_kml f ⟨la, lo, none⟩ u t).pointCoordinates
      = pyFloatRepr lo ++ "," ++ pyFloatRepr la := rfl

/-- C6 counterexample: with a present altitude equal to `0`, the point
text omits the altitude component (Python truthiness), contradicting
the claim that presence alone determines the three-component form. -/
theorem zero_altitude_point_text_cex :
    (create_kml "img.jpg" ⟨3, 4, some 0⟩ "http://example/i.jpg" none).pointCoordinates
      = "4.0,3.0"
    ∧ "4.0,3.0" ≠ pyFloatRepr (4 : ℚ) ++ "," ++ pyFloatRepr (3 : ℚ) ++ ","
        ++ pyFloatRepr (0 : ℚ) :=
  ⟨rfl, by decide⟩

/-- C6 amended: the point text is `longitude,latitude,altitude` when
altitude is present and nonzero, and `longitude,latitude` when it is
absent or exactly zero; longitude always comes first. -/
theorem point_text_shape (f u : String) (t : Option String) (la lo : ℚ) (alt : Option ℚ) :
    (create_kml f ⟨la, lo, alt⟩ u t).pointCoordinates
      = match alt with
        | none => pyFloatRepr lo ++ "," ++ pyFloatRepr la
        | some a =>
            if a = 0 then pyFloatRepr lo ++ "," ++ pyFloatRepr la
            else pyFloatRepr lo ++ "," ++ pyFloatRepr la ++ "," ++ pyFloatRepr a := by
  rcases alt with _ | a
  · rfl
  · by_cases h : a = 0
    · subst h
      rfl
    · simp [create_kml, altTruthy, h]

/-- C7: when the metadata is absent or its mapping lacks the
`"GPSInfo"` key, `get_gps_coordinates` returns `None` without raising. -/
theorem missing_gpsinfo_absent (e : Option RawMetadata)
    (h : ∀ data, e = some data → lookupExif "GPSInfo" data = none) :
    get_gps_coordinates e = .noneVal := by
  cases e with
  | none => rfl
  | some data =>
      have hl := h data rfl
      simp [get_gps_coordinates, hl]

/-- Witness for C7 on a metadata mapping without GPS data. -/
theorem missing_gpsinfo_absent_witness :
    get_gps_coordinates (some [("Make", ExifVal.str "Canon")]) = .noneVal :=
  missing_gpsinfo_absent _ (fun _ hd => by cases hd; rfl)

/-- C8: `create_kml` is deterministic — it is a pure function of its
four arguments (the unique-filename generation and file I/O of the app
happen outside it), so two calls on identical inputs produce the same
serialized text. -/
theorem create_kml_deterministic (f u : String) (c : Coordinates) (t : Option String) :
    kmlToString (create_kml f c u t) = kmlToString (create_kml f c u t) := rfl

/-- C9: with `GPSAltitude` present and `GPSAltitudeRef` absent, the
resolver returns the altitude unnegated; with a ref present, negation
happens exactly when the ref compares equal to the number `1`. -/
theorem altitude_ref_default_above (a : ℚ) :
    (get_gps_coordinates (some [("GPSInfo", .gpsDict
      [("GPSLatitude", .seq [.num 0, .num 0, .num 0]), ("GPSLatitudeRef", .str "N"),
       ("GPSLongitude", .seq [.num 0, .num 0, .num 0]), ("GPSLongitudeRef", .str "E"),
       ("GPSAltitude", .num a)])])
      = .coords ⟨0 + 0 / 60 + 0 / 3600, 0 + 0 / 60 + 0 / 3600, some a⟩)
    ∧ (∀ v : GpsVal,
        get_gps_coordinates (some [("GPSInfo", .gpsDict
          [("GPSLatitude", .seq [.num 0, .num 0, .num 0]), ("GPSLatitudeRef", .str "N"),
           ("GPSLongitude", .seq [.num 0, .num 0, .num 0]), ("GPSLongitudeRef", .str "E"),
           ("GPSAltitude", .num a), ("GPSAltitudeRef", v)])])
        = .coords ⟨0 + 0 / 60 + 0 / 3600, 0 + 0 / 60 + 0 / 3600,
                   some (if pyEqOne (some v) then -a else a)⟩) :=
  ⟨rfl, fun _ => rfl⟩

/-- C10: malformed DMS values make `convert_to_degrees` raise one of
the caught exception kinds (modelled as `none`): wrong-length
sequences, non-convertible components; and with all four
latitude/longitude keys present, such a failure makes
`get_gps_coordinates` return `None` rather than raising. -/
theorem malformed_dms_absent :
    (∀ xs : List GpsVal, xs.length ≠ 3 → convert_to_degrees (.seq xs) = none)
    ∧ (∀ a b c : GpsVal, pyFloat a = none ∨ pyFloat b = none ∨ pyFloat c = none →
        convert_to_degrees (.seq [a, b, c]) = none)
    ∧ (∀ v w : GpsVal, convert_to_degrees v = none ∨ convert_to_degrees w = none →
        get_gps_coordinates (some [("GPSInfo", .gpsDict
          [("GPSLatitude", v), ("GPSLatitudeRef", .str "N"),
           ("GPSLongitude", w), ("GPSLongitudeRef", .str "E")])]) = .noneVal) := by
  refine ⟨?_, ?_, ?_⟩
  · intro xs h
    match xs with
    | [] => rfl
    | [_] => rfl
    | [_, _] => rfl
    | [_, _, _] => exact absurd rfl h
    | _ :: _ :: _ :: _ :: _ => rfl
  · intro a b c h
    rcases h with h | h | h <;> simp [convert_to_degrees, unpack3, h]
  · intro v w h
    rcases h with h | h
    · simp [get_gps_coordinates, resolveGps, lookupExif, lookupGps, pyMem, pyIndex,
        ok_bind, error_bind, h]
    · rcases hv : convert_to_degrees v with _ | x
      · simp [get_gps_coordinates, resolveGps, lookupExif, lookupGps, pyMem, pyIndex,
          ok_bind, error_bind, hv]
      · simp [get_gps_coordinates, resolveGps, lookupExif, lookupGps, pyMem, pyIndex,
          ok_bind, error_bind, hv, h]

/-- Witness for C10: a short triple, a non-numeric component, the
`None` outcome for a malformed latitude with a well-formed longitude,
and the `None` outcome for a well-formed latitude with a malformed
longitude. -/
theorem malformed_dms_absent_witness :
    convert_to_degrees (.seq [.num 1]) = none
    ∧ convert_to_degrees (.seq [.str "x", .num 1, .num 2]) = none
    ∧ get_gps_coordinates (some [("GPSInfo", .gpsDict
        [("GPSLatitude", .seq [.num 1]), ("GPSLatitudeRef", .str "N"),
         ("GPSLongitude", .seq [.num 1, .num 2, .num 3]),
         ("GPSLongitudeRef", .str "E")])]) = .noneVal
    ∧ get_gps_coordinates (some [("GPSInfo", .gpsDict
        [("GPSLatitude", .seq [.num 1, .num 2, .num 3]), ("GPSLatitudeRef", .str "N"),
         ("GPSLongitude", .seq [.num 1]),
         ("GPSLongitudeRef", .str "E")])]) = .noneVal :=
  ⟨malformed_dms_absent.1 [.num 1] (by decide),
   malformed_dms_absent.2.1 _ _ _ (Or.inl rfl),
   malformed_dms_absent.2.2 _ _ (Or.inl rfl),
   malformed_dms_absent.2.2 _ _ (Or.inr rfl)⟩

end ExifApp
